import Mathlib

/-
Verification of the admin moderation-callback workflow (app/events/admin.go).

Go strings are modelled as `List Char`; Go `int64`/`int` values as `Int`
(with explicit range checks where the source performs them); fallible Go
functions return `Except`/`Option`.  Collaborator calls (transport,
classifier, locator, sample store) are modelled as an emitted effect trace
plus failure-injection flags in an environment record, so each handler is a
pure function from environment and input to a pair of the list of issued
calls and the returned error.
-/

deriving instance DecidableEq for Except

/-- Converts a Lean string literal to the `List Char` model of Go strings. -/
def strL (s : String) : List Char := s.data

/-- The apostrophe character, used inside rendered message text. -/
def apos : Char := Char.ofNat 39

/-- Models Go `strings.Split(s, sep)` for a one-character separator. -/
def splitOnChar (sep : Char) : List Char → List (List Char)
  | [] => [[]]
  | c :: rest =>
    if c = sep then [] :: splitOnChar sep rest
    else
      match splitOnChar sep rest with
      | [] => [[c]]
      | p :: ps => (c :: p) :: ps

/-- Models Go `strings.Join(l, sep)`. -/
def strJoin (sep : List Char) : List (List Char) → List Char
  | [] => []
  | [x] => x
  | x :: xs => x ++ sep ++ strJoin sep xs

/-- Decimal digit character for a value below ten, as produced by Go `%d`. -/
def digitChar (m : Nat) : Char :=
  match m with
  | 0 => '0'
  | 1 => '1'
  | 2 => '2'
  | 3 => '3'
  | 4 => '4'
  | 5 => '5'
  | 6 => '6'
  | 7 => '7'
  | 8 => '8'
  | 9 => '9'
  | _ => '*'

/-- Decimal digits of a natural number, least significant first (empty for 0). -/
def natToRevDigits (n : Nat) : List Char :=
  if h : n = 0 then []
  else digitChar (n % 10) :: natToRevDigits (n / 10)
decreasing_by exact Nat.div_lt_self (Nat.pos_of_ne_zero h) (by norm_num)

/-- Decimal rendering of a natural number, as produced by Go `%d`. -/
def natRepr (n : Nat) : List Char :=
  if n = 0 then ['0'] else (natToRevDigits n).reverse

/-- Decimal rendering of an integer, as produced by Go `%d`. -/
def intRepr (i : Int) : List Char :=
  if i < 0 then '-' :: natRepr i.natAbs else natRepr i.natAbs

/-- Numeric value of a decimal digit character. -/
def digitVal (c : Char) : Nat := c.toNat - 48

/-- Accumulating base-10 parse of a digit string; fails on a non-digit. -/
def parseDigitsAcc : List Char → Nat → Option Nat
  | [], acc => some acc
  | c :: cs, acc =>
    if '0' ≤ c ∧ c ≤ '9' then parseDigitsAcc cs (acc * 10 + digitVal c)
    else none

/-- Base-10 parse of a nonempty digit string. -/
def parseDigits (cs : List Char) : Option Nat :=
  if cs = [] then none else parseDigitsAcc cs 0

/-- Largest value of a Go `int64`. -/
def int64Max : Int := 2 ^ 63 - 1

/-- Models Go `strconv.ParseInt(s, 10, 64)` (and `strconv.Atoi` on a 64-bit
platform): optional sign, nonempty run of decimal digits, value within the
`int64` range; `none` models a non-nil error. -/
def goParseInt64 (s : List Char) : Option Int :=
  match s with
  | [] => none
  | c :: rest =>
    if c = '+' then
      (parseDigits rest).bind (fun v => if (v : Int) ≤ int64Max then some (v : Int) else none)
    else if c = '-' then
      (parseDigits rest).bind (fun v => if (v : Int) ≤ 2 ^ 63 then some (-(v : Int)) else none)
    else
      (parseDigits (c :: rest)).bind (fun v => if (v : Int) ≤ int64Max then some (v : Int) else none)

/-- The four actions carried by an inline-button callback payload
(admin.go: dispatch in InlineCallbackHandler, lines 135-180). -/
inductive CallbackAction
  | unban
  | askConfirm
  | confirmBan
  | showInfo
deriving DecidableEq, Repr

/-- The one-character payload tag of each action (admin.go lines 32-36:
confirmationPrefix "?", banPrefix "+", infoPrefix "!", none for unban). -/
def actionTag : CallbackAction → List Char
  | .unban => []
  | .askConfirm => ['?']
  | .confirmBan => ['+']
  | .showInfo => ['!']

/-- Encoding of a callback payload `<tag><userID>:<msgID>` as built by
sendWithUnbanMarkup (admin.go lines 428-430, fmt.Sprintf "%s%d:%d") and by
callbackAskBanConfirmation (lines 195-196, which strips "?" and re-tags "+"). -/
def encodeCallback (a : CallbackAction) (userID msgID : Nat) : List Char :=
  actionTag a ++ natRepr userID ++ [':'] ++ natRepr msgID

/-- Action recovery from a raw payload, as dispatched by
InlineCallbackHandler (admin.go lines 144-179): a recognized leading tag
selects the action, anything else means unban. -/
def decodeAction (data : List Char) : CallbackAction :=
  match data with
  | [] => .unban
  | c :: _ =>
    if c = '?' then .askConfirm
    else if c = '+' then .confirmBan
    else if c = '!' then .showInfo
    else .unban

/-- Tag stripping inside parseCallbackData (admin.go lines 446-449):
a recognized one-character tag is removed before splitting on ":". -/
def stripActionTag (data : List Char) : List Char :=
  match data with
  | [] => []
  | c :: rest => if c = '?' ∨ c = '+' ∨ c = '!' then rest else c :: rest

/-- Error kinds of parseCallbackData; all model the spec MalformedPayload. -/
inductive ParseErr
  | tooShort
  | badParts
  | badUserID
  | badMsgID
deriving DecidableEq, Repr

/-- Models parseCallbackData (admin.go lines 441-463): rejects payloads
shorter than 3 characters, strips a recognized tag, splits on ":", requires
exactly two parts, and parses userID (ParseInt 64) and msgID (Atoi). -/
def parseCallbackData (data : List Char) : Except ParseErr (Int × Int) :=
  if data.length < 3 then .error .tooShort
  else
    let parts := splitOnChar ':' (stripActionTag data)
    if parts.length ≠ 2 then .error .badParts
    else
      match goParseInt64 (parts.getD 0 []) with
      | none => .error .badUserID
      | some userID =>
        match goParseInt64 (parts.getD 1 []) with
        | none => .error .badMsgID
        | some msgID => .ok (userID, msgID)

/-- True when decoding returned an error. -/
def isParseErr : Except ParseErr (Int × Int) → Bool
  | .error _ => true
  | .ok _ => false

/-- Error kinds of getCleanMessage. `sliceOutOfRange` models the Go runtime
panic of `msgLines[2:spamInfoLine]` when `spamInfoLine < 2`. -/
inductive CleanErr
  | tooShort
  | sliceOutOfRange
deriving DecidableEq, Repr

/-- The literal marker line searched for by getCleanMessage. -/
def spamResultsMarker : List Char := strL "spam detection results"

/-- Index of the first line carrying the marker as a prefix, if any. -/
def findMarkerLine : List (List Char) → Nat → Option Nat
  | [], _ => none
  | l :: rest, i =>
    if spamResultsMarker.isPrefixOf l then some i else findMarkerLine rest (i + 1)

/-- Models getCleanMessage (admin.go lines 396-414): splits the admin
message on newlines, requires at least two lines, sets `spamInfoLine` to one
less than the index of the first marker line (or the line count when
absent), and joins `msgLines[2:spamInfoLine]`. -/
def getCleanMessage (msg : List Char) : Except CleanErr (List Char) :=
  let msgLines := splitOnChar '\n' msg
  if msgLines.length < 2 then .error .tooShort
  else
    let spamInfoLine : Int :=
      match findMarkerLine msgLines 0 with
      | some i => (i : Int) - 1
      | none => (msgLines.length : Int)
    if spamInfoLine < 2 then .error .sliceOutOfRange
    else .ok (strJoin ['\n'] ((msgLines.take spamInfoLine.toNat).drop 2))

/-- The ban request record built at each ban site (admin.go banRequest). -/
structure BanRequest where
  duration : Int
  userID : Int
  chatID : Int
  dry : Bool
  training : Bool
deriving DecidableEq, Repr

/-- Modelled from the spec: bot.PermanentBanDuration is a constant defined
in this repository outside the provided source file; only its identity
matters here, so it is fixed as ten years in seconds. -/
def permanentBanDuration : Int := 10 * 365 * 24 * 3600

/-- A correlation record returned by the locator
(spec CorrelationRecord; admin.go info from locator.Message). -/
structure LocatorInfo where
  userID : Int
  userName : List Char
  msgID : Int
deriving DecidableEq, Repr

/-- One collaborator or transport call issued by a handler, in order. -/
inductive Effect
  | removeApprovedUser (userID : Int)
  | onMessage (text : List Char) (userID : Int)
  | sendMessage (chatID : Int) (text : List Char)
  | updateSpam (text : List Char)
  | deleteMessage (chatID : Int) (msgID : Int)
  | banExecutor (req : BanRequest)
  | banTransport (userID : Int) (chatID : Int)
  | editMessage (chatID : Int) (msgID : Int) (text : List Char) (keyboardCleared : Bool)
deriving DecidableEq, Repr

def Effect.isRemoveApproved : Effect → Bool
  | .removeApprovedUser _ => true
  | _ => false

def Effect.isSendMessage : Effect → Bool
  | .sendMessage _ _ => true
  | _ => false

def Effect.isUpdateSpam : Effect → Bool
  | .updateSpam _ => true
  | _ => false

def Effect.isDeleteMessage : Effect → Bool
  | .deleteMessage _ _ => true
  | _ => false

def Effect.isBanExecutor : Effect → Bool
  | .banExecutor _ => true
  | _ => false

def Effect.isBanTransport : Effect → Bool
  | .banTransport _ _ => true
  | _ => false

def Effect.isEditMessage : Effect → Bool
  | .editMessage _ _ _ _ => true
  | _ => false

/-- The admin helper configuration and collaborators (admin.go struct admin)
together with the responses of external calls: locator lookups, the
super-user predicate, classifier check results, the markdown escaper (defined
in this repository outside the provided source file, kept abstract), the
rendering of elapsed time, and one failure-injection flag per fallible call. -/
structure Env where
  primChatID : Int
  adminChatID : Int
  trainingMode : Bool
  dry : Bool
  locatorMessage : List Char → Option LocatorInfo
  locatorUserNameByID : Int → List Char
  isSuper : List Char → Bool
  checkResults : List (List Char)
  escape : List Char → List Char
  timeSinceText : Int → List Char
  removeApprovedFails : Bool
  sendNotifyFails : Bool
  updateSpamFails : Bool
  deleteFails : Bool
  banTransportFails : Bool
  editFails : Bool

/-- One elementary failure inside a multierror aggregate. -/
inductive FailKind
  | removeApprovedFailed
  | sendNotifyFailed
  | deleteMsgFailed
  | banFailed
deriving DecidableEq, Repr

/-- Errors returned by the handlers. `aggregate` models a non-nil
multierror (or the joined error text built in deleteAndBan). -/
inductive AdminErr
  | notFoundInLocator
  | superUserProtected
  | updateSpamFailed
  | cleanMsgFailed
  | parseFailed
  | editFailed
  | deleteMsgFailed
  | aggregate (errs : List FailKind)
deriving DecidableEq, Repr

/-- Models multierror ErrorOrNil: nil when no failure was collected. -/
def errorOrNil (errs : List FailKind) : Option AdminErr :=
  if errs = [] then none else some (.aggregate errs)

/-- Modelled from the spec: banUserOrChannel (the Ban Executor, spec 4.4) is
defined in this repository outside the provided source file.  Per the spec,
dry=true issues no transport mutation yet reports success, and training=true
suppresses the otherwise-automatic ban; otherwise the transport ban request
is issued and may fail.  Returns the issued transport effects and whether
the call returned an error. -/
def banUserOrChannel (env : Env) (req : BanRequest) : List Effect × Bool :=
  if req.dry then ([], false)
  else if req.training then ([], false)
  else ([.banTransport req.userID req.chatID], env.banTransportFails)

/-- A forwarded-message update as consumed by MsgHandler. -/
structure UpdateMsg where
  text : List Char
  forwardSenderName : List Char
  forwardFromPresent : Bool
  messageID : Int
  fromUserName : List Char
deriving DecidableEq, Repr

/-- Go %q quoting of a username (escaping of non-printables elided; quotes
and backslashes escaped). -/
def goQuote (s : List Char) : List Char :=
  '"' :: (s.flatMap (fun c =>
    if c = '"' then ['\\', '"'] else if c = '\\' then ['\\', '\\'] else [c])) ++ ['"']

/-- The default spam-info text "**can't get spam info**" (admin.go line 94). -/
def cantGetSpamInfo : List Char := strL "**can" ++ [apos] ++ strL "t get spam info**"

/-- The spam-info section of the MsgHandler notification (admin.go lines
92-100): each check rendered as "- <escaped>", joined by newlines, with a
fallback when no check result exists. -/
def spamInfoTextFor (env : Env) : List Char :=
  let spamInfo := env.checkResults.map (fun c => strL "- " ++ env.escape c)
  if spamInfo = [] then cantGetSpamInfo else strJoin ['\n'] spamInfo

/-- The notification text sent by MsgHandler (admin.go lines 101-102). -/
def msgHandlerNotifyText (env : Env) (info : LocatorInfo) : List Char :=
  strL "**original detection results for " ++ goQuote info.userName ++ strL " (" ++
    intRepr info.userID ++ strL ")**\n\n" ++ spamInfoTextFor env ++
    strL "\n\n\n*the user banned and message deleted*"

/-- The ban request built by MsgHandler (admin.go lines 124-125). -/
def mkMsgHandlerBanReq (env : Env) (info : LocatorInfo) : BanRequest :=
  { duration := permanentBanDuration, userID := info.userID, chatID := env.primChatID,
    dry := env.dry, training := env.trainingMode }

/-- Models MsgHandler (admin.go lines 51-133): ignores non-forwarded
messages; correlates the text via the locator; aborts for a non-empty
super username; removes the user from the approved list; runs the
classifier and sends the detection-results notification; stops after that
in dry mode; updates spam samples (returning immediately on failure);
deletes the original message; and invokes the ban executor, accumulating
the remove/send/delete/ban failures into one aggregate. -/
def MsgHandler (env : Env) (upd : UpdateMsg) : List Effect × Option AdminErr :=
  if upd.forwardSenderName = [] ∧ upd.forwardFromPresent = false then ([], none)
  else
    match env.locatorMessage upd.text with
    | none => ([], some .notFoundInLocator)
    | some info =>
      if info.userName ≠ [] ∧ env.isSuper info.userName = true then
        ([], some .superUserProtected)
      else
        let errs1 : List FailKind :=
          if env.removeApprovedFails then [.removeApprovedFailed] else []
        let eff1 : List Effect :=
          [.removeApprovedUser info.userID, .onMessage upd.text info.userID,
           .sendMessage env.adminChatID (msgHandlerNotifyText env info)]
        let errs2 := errs1 ++ (if env.sendNotifyFails then [.sendNotifyFailed] else [])
        if env.dry then (eff1, errorOrNil errs2)
        else
          let eff2 := eff1 ++ [.updateSpam upd.text]
          if env.updateSpamFails then (eff2, some .updateSpamFailed)
          else
            let eff3 := eff2 ++ [.deleteMessage env.primChatID info.msgID]
            let errs3 := errs2 ++ (if env.deleteFails then [.deleteMsgFailed] else [])
            let req := mkMsgHandlerBanReq env info
            let bres := banUserOrChannel env req
            let errs4 := errs3 ++ (if bres.2 then [.banFailed] else [])
            (eff3 ++ [.banExecutor req] ++ bres.1, errorOrNil errs4)

/-- The ban request built by deleteAndBan (admin.go lines 346-353): the
training flag is reset to false so the ban executes for real. -/
def mkDeleteAndBanReq (env : Env) (userID : Int) : BanRequest :=
  { duration := permanentBanDuration, userID := userID, chatID := env.primChatID,
    dry := env.dry, training := false }

/-- Models deleteAndBan (admin.go lines 344-385): looks up the username by
id, skips the ban executor for a non-empty super username, always issues the
message delete (returning a single error immediately when it fails, dropping
a collected ban failure), and otherwise reports the collected ban failure. -/
def deleteAndBan (env : Env) (userID msgID : Int) : List Effect × Option AdminErr :=
  let req := mkDeleteAndBanReq env userID
  let userName := env.locatorUserNameByID userID
  let banPart : List Effect × List FailKind :=
    if userName ≠ [] ∧ env.isSuper userName = true then ([], [])
    else
      let bres := banUserOrChannel env req
      (.banExecutor req :: bres.1, if bres.2 then [.banFailed] else [])
  let effs := banPart.1 ++ [.deleteMessage env.primChatID msgID]
  if env.deleteFails then (effs, some .deleteMsgFailed)
  else if banPart.2 = [] then (effs, none)
  else (effs, some (.aggregate banPart.2))

/-- A callback-press query as consumed by callbackBanConfirmed. -/
structure CallbackQuery where
  data : List Char
  fromUserName : List Char
  msgText : List Char
  msgChatID : Int
  msgID : Int
  msgDate : Int
deriving DecidableEq, Repr

/-- The edited text written by callbackBanConfirmed (admin.go lines
212-213): original text plus the confirmation annotation with actor name
and rendered elapsed time. -/
def banConfirmedText (env : Env) (q : CallbackQuery) : List Char :=
  q.msgText ++ strL "\n\n_ban confirmed by " ++ q.fromUserName ++ strL " in " ++
    env.timeSinceText q.msgDate ++ strL "_"

/-- Models callbackBanConfirmed (admin.go lines 210-242): first edits the
admin message (appending the confirmation annotation and clearing the
keyboard), then recovers the clean body, updates spam samples, parses the
payload, and in training mode performs the real delete and ban via
deleteAndBan.  Each later failure returns an error without undoing the
already-issued edit. -/
def callbackBanConfirmed (env : Env) (q : CallbackQuery) : List Effect × Option AdminErr :=
  let e1 : List Effect := [.editMessage q.msgChatID q.msgID (banConfirmedText env q) true]
  if env.editFails then (e1, some .editFailed)
  else
    match getCleanMessage q.msgText with
    | .error _ => (e1, some .cleanMsgFailed)
    | .ok cleanMsg =>
      let e2 := e1 ++ [.updateSpam cleanMsg]
      if env.updateSpamFails then (e2, some .updateSpamFailed)
      else
        match parseCallbackData q.data with
        | .error _ => (e2, some .parseFailed)
        | .ok (userID, msgID) =>
          if env.trainingMode then
            let dres := deleteAndBan env userID msgID
            (e2 ++ dres.1, dres.2)
          else (e2, none)

/-- Digit characters produced by digitChar lie in the decimal range. -/
theorem digitChar_range (m : Nat) (hm : m < 10) :
    '0' ≤ digitChar m ∧ digitChar m ≤ '9' := by
  interval_cases m <;> decide

/-- Digit value inverts digitChar on values below ten. -/
theorem digitVal_digitChar (m : Nat) (hm : m < 10) :
    digitVal (digitChar m) = m := by
  interval_cases m <;> decide

/-- Every character emitted by natToRevDigits is a decimal digit. -/
theorem natToRevDigits_digits (n : Nat) :
    ∀ c ∈ natToRevDigits n, '0' ≤ c ∧ c ≤ '9' := by
  induction n using natToRevDigits.induct with
  | case1 =>
    intro c hc
    rw [natToRevDigits, dif_pos rfl] at hc
    exact absurd hc (List.not_mem_nil c)
  | case2 n h ih =>
    intro c hc
    rw [natToRevDigits, dif_neg h] at hc
    rcases List.mem_cons.mp hc with hc | hc
    · subst hc; exact digitChar_range _ (Nat.mod_lt _ (by norm_num))
    · exact ih c hc

/-- Folding the digit step over the reversed digit list recovers the value. -/
theorem natToRevDigits_foldr (n : Nat) :
    (natToRevDigits n).foldr (fun c a => a * 10 + digitVal c) 0 = n := by
  induction n using natToRevDigits.induct with
  | case1 => rw [natToRevDigits, dif_pos rfl, List.foldr_nil]
  | case2 n h ih =>
    rw [natToRevDigits, dif_neg h, List.foldr_cons, ih,
      digitVal_digitChar _ (Nat.mod_lt _ (by norm_num))]
    omega

/-- Every character of natRepr is a decimal digit. -/
theorem natRepr_digits (n : Nat) :
    ∀ c ∈ natRepr n, '0' ≤ c ∧ c ≤ '9' := by
  intro c hc
  unfold natRepr at hc
  by_cases h : n = 0
  · rw [if_pos h] at hc
    rcases List.mem_singleton.mp hc with rfl
    decide
  · rw [if_neg h] at hc
    exact natToRevDigits_digits n c (List.mem_reverse.mp hc)

/-- natRepr never returns the empty string. -/
theorem natRepr_ne_nil (n : Nat) : natRepr n ≠ [] := by
  unfold natRepr
  by_cases h : n = 0
  · rw [if_pos h]; simp
  · rw [if_neg h, natToRevDigits, dif_neg h]
    simp

/-- Accumulating digit parsing computes the left fold of the digit step. -/
theorem parseDigitsAcc_eq_foldl (cs : List Char) :
    ∀ acc, (∀ c ∈ cs, '0' ≤ c ∧ c ≤ '9') →
      parseDigitsAcc cs acc = some (cs.foldl (fun a c => a * 10 + digitVal c) acc) := by
  induction cs with
  | nil => intro acc _; rfl
  | cons c rest ih =>
    intro acc hall
    rw [parseDigitsAcc, if_pos (hall c (List.mem_cons_self c rest)), List.foldl_cons]
    exact ih _ (fun d hd => hall d (List.mem_cons_of_mem c hd))

/-- Parsing the decimal rendering of a natural number recovers it. -/
theorem parseDigits_natRepr (n : Nat) : parseDigits (natRepr n) = some n := by
  unfold parseDigits
  rw [if_neg (natRepr_ne_nil n)]
  rw [parseDigitsAcc_eq_foldl _ 0 (natRepr_digits n)]
  congr 1
  unfold natRepr
  by_cases h : n = 0
  · rw [if_pos h]; simp [digitVal, h]
  · rw [if_neg h, List.foldl_reverse]
    exact natToRevDigits_foldr n

/-- The first character of natRepr is a decimal digit, hence not a sign. -/
theorem natRepr_head_digit (n : Nat) :
    ∃ c cs, natRepr n = c :: cs ∧ '0' ≤ c ∧ c ≤ '9' := by
  rcases hr : natRepr n with _ | ⟨c, cs⟩
  · exact absurd hr (natRepr_ne_nil n)
  · exact ⟨c, cs, rfl, natRepr_digits n c (hr ▸ List.mem_cons_self c cs)⟩

/-- Go integer parsing inverts decimal rendering for in-range naturals. -/
theorem goParseInt64_natRepr (n : Nat) (hn : (n : Int) ≤ int64Max) :
    goParseInt64 (natRepr n) = some (n : Int) := by
  obtain ⟨c, cs, hr, hc0, hc9⟩ := natRepr_head_digit n
  have hplus : ¬ c = '+' := by
    intro h; subst h; exact absurd hc0 (by decide)
  have hminus : ¬ c = '-' := by
    intro h; subst h; exact absurd hc0 (by decide)
  rw [hr, goParseInt64, if_neg hplus, if_neg hminus, ← hr, parseDigits_natRepr,
    Option.some_bind, if_pos hn]

/-- A colon is not a decimal digit, so natRepr contains no colon. -/
theorem natRepr_no_colon (n : Nat) : ∀ c ∈ natRepr n, ¬ c = ':' := by
  intro c hc h
  subst h
  exact absurd (natRepr_digits n _ hc).2 (by decide)

/-- Splitting a separator-free string yields that single part. -/
theorem splitOnChar_no_sep (sep : Char) (xs : List Char)
    (h : ∀ c ∈ xs, ¬ c = sep) : splitOnChar sep xs = [xs] := by
  induction xs with
  | nil => rfl
  | cons c rest ih =>
    rw [splitOnChar, if_neg (h c (List.mem_cons_self c rest)),
      ih (fun d hd => h d (List.mem_cons_of_mem c hd))]

/-- Splitting at the first separator after a separator-free part peels off
that part. -/
theorem splitOnChar_append_sep (sep : Char) (xs ys : List Char)
    (h : ∀ c ∈ xs, ¬ c = sep) :
    splitOnChar sep (xs ++ sep :: ys) = xs :: splitOnChar sep ys := by
  induction xs with
  | nil => rw [List.nil_append, splitOnChar, if_pos rfl]
  | cons c rest ih =>
    rw [List.cons_append, splitOnChar, if_neg (h c (List.mem_cons_self c rest)),
      ih (fun d hd => h d (List.mem_cons_of_mem c hd))]

/-- A decimal digit character is none of the three recognized tags. -/
theorem digit_not_tag (c : Char) (h0 : '0' ≤ c) (h9 : c ≤ '9') :
    ¬ (c = '?' ∨ c = '+' ∨ c = '!') := by
  rintro (rfl | rfl | rfl)
  · exact absurd h9 (by decide)
  · exact absurd h0 (by decide)
  · exact absurd h0 (by decide)

/-- Tag stripping undoes the tag added by encoding. -/
theorem stripActionTag_encode (a : CallbackAction) (u m : Nat) :
    stripActionTag (encodeCallback a u m) = natRepr u ++ ':' :: natRepr m := by
  obtain ⟨c, cs, hr, h0, h9⟩ := natRepr_head_digit u
  have hshape : natRepr u ++ [':'] ++ natRepr m = natRepr u ++ ':' :: natRepr m := by
    rw [List.append_assoc]; rfl
  cases a
  · rw [encodeCallback, actionTag, List.nil_append, hshape, hr, List.cons_append,
      stripActionTag, if_neg (digit_not_tag c h0 h9), ← List.cons_append, ← hr]
  · rw [encodeCallback, actionTag, List.cons_append, List.nil_append, List.cons_append,
      List.cons_append, stripActionTag, if_pos (Or.inl rfl), hshape]
  · rw [encodeCallback, actionTag, List.cons_append, List.nil_append, List.cons_append,
      List.cons_append, stripActionTag, if_pos (Or.inr (Or.inl rfl)), hshape]
  · rw [encodeCallback, actionTag, List.cons_append, List.nil_append, List.cons_append,
      List.cons_append, stripActionTag, if_pos (Or.inr (Or.inr rfl)), hshape]

/-- Encoded payloads are never shorter than three characters. -/
theorem encode_length_ge (a : CallbackAction) (u m : Nat) :
    ¬ (encodeCallback a u m).length < 3 := by
  have h1 : 0 < (natRepr u).length := List.length_pos.mpr (natRepr_ne_nil u)
  have h2 : 0 < (natRepr m).length := List.length_pos.mpr (natRepr_ne_nil m)
  cases a <;>
    simp only [encodeCallback, actionTag, List.length_append, List.nil_append,
      List.length_cons, List.length_singleton, List.length_nil] <;>
    omega

/-- Decoding the action of an encoded payload recovers the action. -/
theorem decodeAction_encode (a : CallbackAction) (u m : Nat) :
    decodeAction (encodeCallback a u m) = a := by
  obtain ⟨c, cs, hr, h0, h9⟩ := natRepr_head_digit u
  have hnot := digit_not_tag c h0 h9
  cases a
  · rw [encodeCallback, actionTag, List.nil_append, hr, List.cons_append,
      List.cons_append, decodeAction]
    rw [if_neg (fun h => hnot (Or.inl h)), if_neg (fun h => hnot (Or.inr (Or.inl h))),
      if_neg (fun h => hnot (Or.inr (Or.inr h)))]
  · simp [encodeCallback, actionTag, decodeAction]
  · simp [encodeCallback, actionTag, decodeAction]
  · simp [encodeCallback, actionTag, decodeAction]

/-- Parsing an encoded payload recovers both identifiers. -/
theorem parseCallbackData_encode (a : CallbackAction) (u m : Nat)
    (hu : (u : Int) ≤ int64Max) (hm : (m : Int) ≤ int64Max) :
    parseCallbackData (encodeCallback a u m) = .ok ((u : Int), (m : Int)) := by
  have hsplit : splitOnChar ':' (natRepr u ++ ':' :: natRepr m) = [natRepr u, natRepr m] := by
    rw [splitOnChar_append_sep ':' _ _ (natRepr_no_colon u),
      splitOnChar_no_sep ':' _ (natRepr_no_colon m)]
  rw [parseCallbackData, if_neg (encode_length_ge a u m)]
  simp only [stripActionTag_encode a u m, hsplit, List.length_cons, List.length_nil,
    List.getD_cons_zero, List.getD_cons_succ]
  rw [if_neg (by omega), goParseInt64_natRepr u hu, goParseInt64_natRepr m hm]

/-- C2: for every action tag in Unban, AskConfirm, ConfirmBan, ShowInfo and
every non-negative (int64-representable) userID and msgID, decoding the
encoded payload tag++userID:msgID recovers exactly the same action, userID
and msgID. -/
theorem c2_roundtrip (a : CallbackAction) (u m : Nat)
    (hu : (u : Int) ≤ int64Max) (hm : (m : Int) ≤ int64Max) :
    decodeAction (encodeCallback a u m) = a ∧
    parseCallbackData (encodeCallback a u m) = .ok ((u : Int), (m : Int)) :=
  ⟨decodeAction_encode a u m, parseCallbackData_encode a u m hu hm⟩

/-- C2 witness: the round trip at the concrete payload "?7:100". -/
theorem c2_roundtrip_witness :
    decodeAction (encodeCallback .askConfirm 7 100) = .askConfirm ∧
    parseCallbackData (encodeCallback .askConfirm 7 100) = .ok ((7 : Int), (100 : Int)) :=
  c2_roundtrip .askConfirm 7 100 (by decide) (by decide)

/-- C6: any payload shorter than 3 characters, or without exactly one colon
after tag stripping, or whose halves do not both parse as integers, is
rejected by parseCallbackData with an error (the spec MalformedPayload);
parseCallbackData is a pure function, so no side effect occurs; and a
payload without a recognized tag is dispatched as the Unban action. -/
theorem c6_malformed (data : List Char) :
    (data.length < 3 → parseCallbackData data = .error .tooShort) ∧
    ((splitOnChar ':' (stripActionTag data)).length ≠ 2 →
      isParseErr (parseCallbackData data) = true) ∧
    (∀ p1 p2, splitOnChar ':' (stripActionTag data) = [p1, p2] →
      (goParseInt64 p1 = none ∨ goParseInt64 p2 = none) →
      isParseErr (parseCallbackData data) = true) ∧
    ((¬ data.headD ' ' = '?' ∧ ¬ data.headD ' ' = '+' ∧ ¬ data.headD ' ' = '!') →
      decodeAction data = .unban) := by
  refine ⟨?_, ?_, ?_, ?_⟩
  · intro h
    rw [parseCallbackData, if_pos h]
  · intro h
    by_cases hlen : data.length < 3
    · rw [parseCallbackData, if_pos hlen]; rfl
    · simp only [parseCallbackData]
      rw [if_neg hlen, if_pos h]
      rfl
  · intro p1 p2 hsp hor
    by_cases hlen : data.length < 3
    · rw [parseCallbackData, if_pos hlen]; rfl
    · simp only [parseCallbackData]
      rw [if_neg hlen, hsp, if_neg (by simp)]
      simp only [List.getD_cons_zero, List.getD_cons_succ]
      rcases hor with h | h
      · rw [h]; rfl
      · cases hg : goParseInt64 p1 with
        | none => rfl
        | some u => rw [h]; rfl
  · intro h
    cases data with
    | nil => rfl
    | cons c rest =>
      simp only [List.headD_cons] at h
      obtain ⟨h1, h2, h3⟩ := h
      simp only [decodeAction]
      rw [if_neg h1, if_neg h2, if_neg h3]

/-- C6 witness: the too-short payload "ab" is rejected, the colon-free
payload "abc" is rejected, the payload "a:b" with non-numeric halves is
rejected, and "12:34" carries the Unban action. -/
theorem c6_malformed_witness :
    parseCallbackData (strL "ab") = .error .tooShort ∧
    isParseErr (parseCallbackData (strL "abc")) = true ∧
    isParseErr (parseCallbackData (strL "a:b")) = true ∧
    decodeAction (strL "12:34") = .unban :=
  ⟨(c6_malformed (strL "ab")).1 (by decide),
   (c6_malformed (strL "abc")).2.1 (by decide),
   (c6_malformed (strL "a:b")).2.2.1 (strL "a") (strL "b") (by decide) (Or.inl (by decide)),
   (c6_malformed (strL "12:34")).2.2.2 ⟨by decide, by decide, by decide⟩⟩

/-- The admin-message text of claim C1, its six lines joined by newlines. -/
def c1Input : List Char := strL "header\n\nbody1\nbody2\nspam detection results\n- x"

/-- C1 counterexample: on the admin-message lines header, blank, body1,
body2, marker, detail, getCleanMessage returns "body1", not the claimed
"body1\nbody2": the slice msgLines[2:markerIndex-1] excludes the line
directly above the marker. -/
theorem c1_counterexample :
    getCleanMessage c1Input = .ok (strL "body1") ∧
    ¬ getCleanMessage c1Input = .ok (strL "body1\nbody2") := by
  constructor
  · rfl
  · decide

/-- C1 (amended): for the admin-message line list header, blank, body1,
body2, marker, detail, getCleanMessage locates the first line prefixed by
"spam detection results" and returns the body lines strictly before the
line directly above that marker, here "body1"; the line directly above the
marker (normally the blank separator) is excluded. -/
theorem c1_amended :
    getCleanMessage c1Input = .ok (strL "body1") := by
  rfl

/-- A default environment for concrete runs: no failures, nobody super. -/
def baseEnv : Env :=
  { primChatID := 1, adminChatID := 2, trainingMode := false, dry := false,
    locatorMessage := fun _ => none,
    locatorUserNameByID := fun _ => [],
    isSuper := fun _ => false,
    checkResults := [],
    escape := fun s => s,
    timeSinceText := fun _ => strL "5s",
    removeApprovedFails := false, sendNotifyFails := false, updateSpamFails := false,
    deleteFails := false, banTransportFails := false, editFails := false }

/-- A correlation record whose username is empty. -/
def infoEmptyName : LocatorInfo := { userID := 7, userName := [], msgID := 100 }

/-- A correlation record for user bob. -/
def infoBob : LocatorInfo := { userID := 7, userName := strL "bob", msgID := 100 }

/-- An environment whose super-user list contains every name, including the
empty one, and whose locator correlates the forwarded text. -/
def envEmptySuper : Env :=
  { baseEnv with
    isSuper := fun _ => true,
    locatorMessage := fun t => if t = strL "buy cheap meds" then some infoEmptyName else none }

/-- An environment whose super-user list contains exactly bob and whose
locator correlates the forwarded text to bob. -/
def envBobSuper : Env :=
  { baseEnv with
    isSuper := fun s => s == strL "bob",
    locatorMessage := fun t => if t = strL "buy cheap meds" then some infoBob else none }

/-- The environment for bob with the id-to-username lookup also set. -/
def envBobSuperFull : Env :=
  { envBobSuper with
    locatorUserNameByID := fun u => if u = 7 then strL "bob" else [] }

/-- A forwarded report carrying the spam text. -/
def updFwd : UpdateMsg :=
  { text := strL "buy cheap meds", forwardSenderName := strL "reporter",
    forwardFromPresent := true, messageID := 5, fromUserName := strL "admin" }

/-- MsgHandler aborts with SuperUserProtected and no effect when the
correlated username is nonempty and super. -/
theorem msgHandler_super_abort (env : Env) (upd : UpdateMsg) (info : LocatorInfo)
    (hfwd : ¬ (upd.forwardSenderName = [] ∧ upd.forwardFromPresent = false))
    (hloc : env.locatorMessage upd.text = some info)
    (hname : info.userName ≠ [])
    (hsuper : env.isSuper info.userName = true) :
    MsgHandler env upd = ([], some .superUserProtected) := by
  simp only [MsgHandler, hloc]
  rw [if_neg hfwd, if_pos ⟨hname, hsuper⟩]

/-- C3 counterexample: with the empty username present on the super-user
list (isSuper is constantly true) and a correlated record whose username is
empty, MsgHandler does not abort: it reports success and issues the
approved-list removal, because the source guards the super check with a
non-empty-username test. -/
theorem c3_counterexample :
    envEmptySuper.isSuper infoEmptyName.userName = true ∧
    envEmptySuper.locatorMessage updFwd.text = some infoEmptyName ∧
    (MsgHandler envEmptySuper updFwd).2 = none ∧
    Effect.removeApprovedUser 7 ∈ (MsgHandler envEmptySuper updFwd).1 := by
  decide

/-- C3 (amended): for every forwarded message whose correlated record has a
NON-EMPTY username on the super-user list, MsgHandler returns the
SuperUserProtected error and issues zero collaborator or transport calls. -/
theorem c3_super_protected (env : Env) (upd : UpdateMsg) (info : LocatorInfo)
    (hfwd : ¬ (upd.forwardSenderName = [] ∧ upd.forwardFromPresent = false))
    (hloc : env.locatorMessage upd.text = some info)
    (hname : info.userName ≠ [])
    (hsuper : env.isSuper info.userName = true) :
    MsgHandler env upd = ([], some .superUserProtected) :=
  msgHandler_super_abort env upd info hfwd hloc hname hsuper

/-- C3 witness: the amended statement at the concrete bob environment. -/
theorem c3_super_protected_witness :
    MsgHandler envBobSuper updFwd = ([], some .superUserProtected) :=
  c3_super_protected envBobSuper updFwd infoBob (by decide) (by decide) (by decide) (by decide)

/-- C7 counterexample: when MsgHandler aborts because the correlated
username bob is a super-user, it sends no message at all to the admin chat
before returning the error: the trace contains zero send calls. -/
theorem c7_counterexample :
    envBobSuper.locatorMessage updFwd.text = some infoBob ∧
    ¬ infoBob.userName = [] ∧
    envBobSuper.isSuper infoBob.userName = true ∧
    (MsgHandler envBobSuper updFwd).2 = some .superUserProtected ∧
    (MsgHandler envBobSuper updFwd).1.countP Effect.isSendMessage = 0 := by
  decide

/-- C7 (amended): when MsgHandler aborts because the correlated username is
a super-user, it returns the SuperUserProtected error immediately and sends
no report to the admin chat. -/
theorem c7_super_no_report (env : Env) (upd : UpdateMsg) (info : LocatorInfo)
    (hfwd : ¬ (upd.forwardSenderName = [] ∧ upd.forwardFromPresent = false))
    (hloc : env.locatorMessage upd.text = some info)
    (hname : info.userName ≠ [])
    (hsuper : env.isSuper info.userName = true) :
    (MsgHandler env upd).2 = some .superUserProtected ∧
    (MsgHandler env upd).1.countP Effect.isSendMessage = 0 := by
  rw [msgHandler_super_abort env upd info hfwd hloc hname hsuper]
  exact ⟨rfl, rfl⟩

/-- C7 witness: the amended statement at the concrete bob environment. -/
theorem c7_super_no_report_witness :
    (MsgHandler envBobSuper updFwd).2 = some .superUserProtected ∧
    (MsgHandler envBobSuper updFwd).1.countP Effect.isSendMessage = 0 :=
  c7_super_no_report envBobSuper updFwd infoBob (by decide) (by decide) (by decide) (by decide)

/-- C9: no ban request is ever issued for a user whose looked-up username
is non-empty and on the super-user list: MsgHandler aborts with an empty
trace, and deleteAndBan skips both the ban-executor call and the transport
ban while still issuing exactly one message delete. -/
theorem c9_no_super_ban (env : Env) (upd : UpdateMsg) (info : LocatorInfo) (u m : Int)
    (hloc : env.locatorMessage upd.text = some info)
    (hname : info.userName ≠ [])
    (hsuper : env.isSuper info.userName = true)
    (hname2 : env.locatorUserNameByID u ≠ [])
    (hsuper2 : env.isSuper (env.locatorUserNameByID u) = true) :
    ((MsgHandler env upd).1 = [] ∧
     (MsgHandler env upd).1.countP Effect.isBanExecutor = 0 ∧
     (MsgHandler env upd).1.countP Effect.isBanTransport = 0) ∧
    ((deleteAndBan env u m).1.countP Effect.isBanExecutor = 0 ∧
     (deleteAndBan env u m).1.countP Effect.isBanTransport = 0 ∧
     (deleteAndBan env u m).1.countP Effect.isDeleteMessage = 1) := by
  constructor
  · by_cases hfwd : upd.forwardSenderName = [] ∧ upd.forwardFromPresent = false
    · rw [MsgHandler, if_pos hfwd]
      exact ⟨rfl, rfl, rfl⟩
    · rw [msgHandler_super_abort env upd info hfwd hloc hname hsuper]
      exact ⟨rfl, rfl, rfl⟩
  · have hsup : env.locatorUserNameByID u ≠ [] ∧ env.isSuper (env.locatorUserNameByID u) = true :=
      ⟨hname2, hsuper2⟩
    simp only [deleteAndBan, if_pos hsup]
    cases hD : env.deleteFails <;>
      simp [List.countP_cons, List.countP_nil, Effect.isBanExecutor,
        Effect.isBanTransport, Effect.isDeleteMessage]

/-- C9 witness: the statement at the concrete bob environment. -/
theorem c9_no_super_ban_witness :
    ((MsgHandler envBobSuperFull updFwd).1 = [] ∧
     (MsgHandler envBobSuperFull updFwd).1.countP Effect.isBanExecutor = 0 ∧
     (MsgHandler envBobSuperFull updFwd).1.countP Effect.isBanTransport = 0) ∧
    ((deleteAndBan envBobSuperFull 7 100).1.countP Effect.isBanExecutor = 0 ∧
     (deleteAndBan envBobSuperFull 7 100).1.countP Effect.isBanTransport = 0 ∧
     (deleteAndBan envBobSuperFull 7 100).1.countP Effect.isDeleteMessage = 1) :=
  c9_no_super_ban envBobSuperFull updFwd infoBob 7 100
    (by decide) (by decide) (by decide) (by decide) (by decide)

/-- The transport trace of the ban executor, by case on its flags. -/
theorem banUserOrChannel_trace (env : Env) (req : BanRequest) :
    (banUserOrChannel env req).1 =
      if req.dry then [] else if req.training then []
      else [.banTransport req.userID req.chatID] := by
  cases hd : req.dry <;> cases ht : req.training <;> simp [banUserOrChannel, hd, ht]

/-- C4: in the non-dry, non-super case with successful correlation, the
remove-approved, notify, delete and ban-executor steps are each attempted
exactly once regardless of the failure of any other step, and the result
aggregates the collected failures in order; when the UpdateSpam sample
update fails, the handler returns that single error immediately and the
delete and ban steps are not attempted. -/
theorem c4_error_accumulation (env : Env) (upd : UpdateMsg) (info : LocatorInfo)
    (hfwd : ¬ (upd.forwardSenderName = [] ∧ upd.forwardFromPresent = false))
    (hloc : env.locatorMessage upd.text = some info)
    (hnsuper : ¬ (info.userName ≠ [] ∧ env.isSuper info.userName = true))
    (hdry : env.dry = false) :
    (env.updateSpamFails = false →
      (MsgHandler env upd).1.countP Effect.isRemoveApproved = 1 ∧
      (MsgHandler env upd).1.countP Effect.isSendMessage = 1 ∧
      (MsgHandler env upd).1.countP Effect.isUpdateSpam = 1 ∧
      (MsgHandler env upd).1.countP Effect.isDeleteMessage = 1 ∧
      (MsgHandler env upd).1.countP Effect.isBanExecutor = 1 ∧
      (MsgHandler env upd).2 = errorOrNil
        ((if env.removeApprovedFails then [.removeApprovedFailed] else []) ++
         (if env.sendNotifyFails then [.sendNotifyFailed] else []) ++
         (if env.deleteFails then [.deleteMsgFailed] else []) ++
         (if (banUserOrChannel env (mkMsgHandlerBanReq env info)).2 then [.banFailed] else []))) ∧
    (env.updateSpamFails = true →
      (MsgHandler env upd).1.countP Effect.isRemoveApproved = 1 ∧
      (MsgHandler env upd).1.countP Effect.isSendMessage = 1 ∧
      (MsgHandler env upd).1.countP Effect.isUpdateSpam = 1 ∧
      (MsgHandler env upd).1.countP Effect.isDeleteMessage = 0 ∧
      (MsgHandler env upd).1.countP Effect.isBanExecutor = 0 ∧
      (MsgHandler env upd).2 = some .updateSpamFailed) := by
  constructor
  · intro hus
    simp only [MsgHandler, hloc, if_neg hfwd, if_neg hnsuper, hdry, hus,
      Bool.false_eq_true, if_false]
    refine ⟨?_, ?_, ?_, ?_, ?_, ?_⟩
    · simp [List.countP_append, List.countP_cons, List.countP_nil, banUserOrChannel_trace,
        mkMsgHandlerBanReq, hdry, Effect.isRemoveApproved]
    · simp [List.countP_append, List.countP_cons, List.countP_nil, banUserOrChannel_trace,
        mkMsgHandlerBanReq, hdry, Effect.isSendMessage]
    · simp [List.countP_append, List.countP_cons, List.countP_nil, banUserOrChannel_trace,
        mkMsgHandlerBanReq, hdry, Effect.isUpdateSpam]
    · simp [List.countP_append, List.countP_cons, List.countP_nil, banUserOrChannel_trace,
        mkMsgHandlerBanReq, hdry, Effect.isDeleteMessage]
    · simp [List.countP_append, List.countP_cons, List.countP_nil, banUserOrChannel_trace,
        mkMsgHandlerBanReq, hdry, Effect.isBanExecutor]
    · simp [List.append_assoc]
  · intro hus
    simp only [MsgHandler, hloc, if_neg hfwd, if_neg hnsuper, hdry, hus,
      Bool.false_eq_true, if_false, if_true]
    refine ⟨?_, ?_, ?_, ?_, ?_, ?_⟩ <;>
      simp [List.countP_append, List.countP_cons, List.countP_nil,
        Effect.isRemoveApproved, Effect.isSendMessage, Effect.isUpdateSpam,
        Effect.isDeleteMessage, Effect.isBanExecutor]

/-- The non-dry environment of the C4 witness: the locator correlates the
forwarded text, nobody is super, and the approved-list removal fails. -/
def envC4 : Env :=
  { baseEnv with
    locatorMessage := fun t => if t = strL "buy cheap meds" then some infoBob else none,
    removeApprovedFails := true }

/-- C4 witness: with the removal failing, notify, sample update, delete and
ban are still each attempted once and the removal failure is aggregated. -/
theorem c4_error_accumulation_witness :
    (MsgHandler envC4 updFwd).1.countP Effect.isRemoveApproved = 1 ∧
    (MsgHandler envC4 updFwd).1.countP Effect.isSendMessage = 1 ∧
    (MsgHandler envC4 updFwd).1.countP Effect.isUpdateSpam = 1 ∧
    (MsgHandler envC4 updFwd).1.countP Effect.isDeleteMessage = 1 ∧
    (MsgHandler envC4 updFwd).1.countP Effect.isBanExecutor = 1 ∧
    (MsgHandler envC4 updFwd).2 = errorOrNil
      ((if envC4.removeApprovedFails then [.removeApprovedFailed] else []) ++
       (if envC4.sendNotifyFails then [.sendNotifyFailed] else []) ++
       (if envC4.deleteFails then [.deleteMsgFailed] else []) ++
       (if (banUserOrChannel envC4 (mkMsgHandlerBanReq envC4 infoBob)).2 then [.banFailed]
        else [])) :=
  (c4_error_accumulation envC4 updFwd infoBob (by decide) (by decide) (by decide) rfl).1 rfl

/-- The trace of deleteAndBan in the non-super case: one ban-executor call,
its transport effects, then the message delete. -/
theorem deleteAndBan_trace (env : Env) (u m : Int)
    (hnsuper : ¬ (env.locatorUserNameByID u ≠ [] ∧
      env.isSuper (env.locatorUserNameByID u) = true)) :
    (deleteAndBan env u m).1 =
      Effect.banExecutor (mkDeleteAndBanReq env u) ::
        ((banUserOrChannel env (mkDeleteAndBanReq env u)).1 ++
         [Effect.deleteMessage env.primChatID m]) := by
  simp only [deleteAndBan, if_neg hnsuper]
  cases hdf : env.deleteFails
  · cases hb : (banUserOrChannel env (mkDeleteAndBanReq env u)).2 <;> simp [hb]
  · simp

/-- C5: on a ConfirmBan press in training mode (edit, clean-message
recovery, sample update and payload parse all succeeding, and the user not
a super-user), the handler invokes the ban executor exactly once, every ban
request it passes has its training flag reset to false, and the message
delete is issued exactly once. -/
theorem c5_training_real_ban (env : Env) (q : CallbackQuery) (u m : Int) (cm : List Char)
    (htrain : env.trainingMode = true)
    (hedit : env.editFails = false)
    (hclean : getCleanMessage q.msgText = .ok cm)
    (hspam : env.updateSpamFails = false)
    (hparse : parseCallbackData q.data = .ok (u, m))
    (hnsuper : ¬ (env.locatorUserNameByID u ≠ [] ∧
      env.isSuper (env.locatorUserNameByID u) = true)) :
    (callbackBanConfirmed env q).1.countP Effect.isBanExecutor = 1 ∧
    (∀ req, Effect.banExecutor req ∈ (callbackBanConfirmed env q).1 →
      req.training = false) ∧
    (callbackBanConfirmed env q).1.countP Effect.isDeleteMessage = 1 := by
  have htr : (callbackBanConfirmed env q).1 =
      Effect.editMessage q.msgChatID q.msgID (banConfirmedText env q) true ::
        Effect.updateSpam cm ::
        Effect.banExecutor (mkDeleteAndBanReq env u) ::
        ((banUserOrChannel env (mkDeleteAndBanReq env u)).1 ++
         [Effect.deleteMessage env.primChatID m]) := by
    simp only [callbackBanConfirmed, hedit, hclean, hspam, hparse, htrain,
      Bool.false_eq_true, if_false, if_true]
    rw [deleteAndBan_trace env u m hnsuper]
    simp
  refine ⟨?_, ?_, ?_⟩
  · rw [htr, banUserOrChannel_trace]
    cases hd : env.dry <;>
      simp [mkDeleteAndBanReq, List.countP_append, List.countP_cons, List.countP_nil,
        Effect.isBanExecutor]
  · intro req hreq
    rw [htr, banUserOrChannel_trace] at hreq
    simp only [mkDeleteAndBanReq] at hreq
    cases hd : env.dry <;> rw [hd] at hreq <;> simp at hreq <;>
      rcases hreq with rfl <;> rfl
  · rw [htr, banUserOrChannel_trace]
    cases hd : env.dry <;>
      simp [mkDeleteAndBanReq, List.countP_append, List.countP_cons, List.countP_nil,
        Effect.isDeleteMessage]

/-- The training-mode environment of the C5 witness. -/
def envC5 : Env := { baseEnv with trainingMode := true }

/-- A ConfirmBan press carrying payload "+7:100" on a well-formed admin
message. -/
def qC5 : CallbackQuery :=
  { data := strL "+7:100",
    fromUserName := strL "admin",
    msgText := strL "header\n\nbody\n\nspam detection results\n- x",
    msgChatID := 2, msgID := 55, msgDate := 0 }

/-- C5 witness: the statement at the concrete training-mode press. -/
theorem c5_training_real_ban_witness :
    (callbackBanConfirmed envC5 qC5).1.countP Effect.isBanExecutor = 1 ∧
    (∀ req, Effect.banExecutor req ∈ (callbackBanConfirmed envC5 qC5).1 →
      req.training = false) ∧
    (callbackBanConfirmed envC5 qC5).1.countP Effect.isDeleteMessage = 1 :=
  c5_training_real_ban envC5 qC5 7 100 (strL "body")
    rfl rfl (by decide) rfl (by decide) (by decide)

/-- The dry-mode environment with a correlated record for bob (not super). -/
def envDryRun : Env :=
  { baseEnv with
    dry := true,
    locatorMessage := fun t => if t = strL "buy cheap meds" then some infoBob else none }

/-- C8 counterexample: with dry=true and a correlated non-super record, the
handler reports success yet still issues the approved-list removal (a
collaborator mutation), and the deferred delete/ban path still issues the
transport message delete, contradicting the claimed zero mutation calls. -/
theorem c8_counterexample :
    envDryRun.dry = true ∧
    (MsgHandler envDryRun updFwd).2 = none ∧
    Effect.removeApprovedUser 7 ∈ (MsgHandler envDryRun updFwd).1 ∧
    (deleteAndBan envDryRun 7 100).1.countP Effect.isDeleteMessage = 1 := by
  decide

/-- C8 (amended): with dry=true, MsgHandler still issues the approved-list
removal, the classifier call and the admin notification, but no sample
update, no message delete, no ban-executor call and no transport ban, and
reports success when removal and notification succeed; the deferred
delete/ban path issues no transport ban when dry but still issues exactly
one message delete. -/
theorem c8_dry_run (env : Env) (upd : UpdateMsg) (info : LocatorInfo) (u m : Int)
    (hfwd : ¬ (upd.forwardSenderName = [] ∧ upd.forwardFromPresent = false))
    (hloc : env.locatorMessage upd.text = some info)
    (hnsuper : ¬ (info.userName ≠ [] ∧ env.isSuper info.userName = true))
    (hdry : env.dry = true) :
    ((MsgHandler env upd).1 =
       [.removeApprovedUser info.userID, .onMessage upd.text info.userID,
        .sendMessage env.adminChatID (msgHandlerNotifyText env info)] ∧
     (MsgHandler env upd).1.countP Effect.isUpdateSpam = 0 ∧
     (MsgHandler env upd).1.countP Effect.isDeleteMessage = 0 ∧
     (MsgHandler env upd).1.countP Effect.isBanExecutor = 0 ∧
     (MsgHandler env upd).1.countP Effect.isBanTransport = 0 ∧
     (env.removeApprovedFails = false → env.sendNotifyFails = false →
       (MsgHandler env upd).2 = none)) ∧
    ((deleteAndBan env u m).1.countP Effect.isBanTransport = 0 ∧
     (deleteAndBan env u m).1.countP Effect.isDeleteMessage = 1) := by
  constructor
  · simp only [MsgHandler, hloc, if_neg hfwd, if_neg hnsuper, hdry, if_true]
    refine ⟨by trivial, ?_, ?_, ?_, ?_, ?_⟩
    · simp [List.countP_cons, List.countP_nil, Effect.isUpdateSpam]
    · simp [List.countP_cons, List.countP_nil, Effect.isDeleteMessage]
    · simp [List.countP_cons, List.countP_nil, Effect.isBanExecutor]
    · simp [List.countP_cons, List.countP_nil, Effect.isBanTransport]
    · intro h1 h2
      simp [errorOrNil, h1, h2]
  · by_cases hsup : env.locatorUserNameByID u ≠ [] ∧
      env.isSuper (env.locatorUserNameByID u) = true
    · simp only [deleteAndBan, if_pos hsup]
      cases hdf : env.deleteFails <;>
        simp [List.countP_cons, List.countP_nil, Effect.isBanTransport,
          Effect.isDeleteMessage]
    · rw [deleteAndBan_trace env u m hsup, banUserOrChannel_trace]
      simp [mkDeleteAndBanReq, hdry, List.countP_append, List.countP_cons,
        List.countP_nil, Effect.isBanTransport, Effect.isDeleteMessage]

/-- C8 witness: the amended statement at the concrete dry environment. -/
theorem c8_dry_run_witness :
    (MsgHandler envDryRun updFwd).1 =
      [.removeApprovedUser 7, .onMessage (strL "buy cheap meds") 7,
       .sendMessage 2 (msgHandlerNotifyText envDryRun infoBob)] ∧
    (MsgHandler envDryRun updFwd).2 = none ∧
    (deleteAndBan envDryRun 7 100).1.countP Effect.isDeleteMessage = 1 :=
  ⟨(c8_dry_run envDryRun updFwd infoBob 7 100
      (by decide) (by decide) (by decide) rfl).1.1,
   (c8_dry_run envDryRun updFwd infoBob 7 100
      (by decide) (by decide) (by decide) rfl).1.2.2.2.2.2 rfl rfl,
   (c8_dry_run envDryRun updFwd infoBob 7 100
      (by decide) (by decide) (by decide) rfl).2.2⟩

/-- The first issued effect of callbackBanConfirmed is always the message
edit appending the confirmation annotation and clearing the keyboard. -/
theorem callbackBanConfirmed_head (env : Env) (q : CallbackQuery) :
    (callbackBanConfirmed env q).1.head? =
      some (.editMessage q.msgChatID q.msgID (banConfirmedText env q) true) := by
  cases he : env.editFails
  · simp only [callbackBanConfirmed, he, Bool.false_eq_true, if_false]
    cases hc : getCleanMessage q.msgText with
    | error e => simp [hc]
    | ok cm =>
      cases hus : env.updateSpamFails
      · cases hp : parseCallbackData q.data with
        | error e => simp [hc, hus, hp]
        | ok val =>
          rcases val with ⟨uu, mm⟩
          cases htm : env.trainingMode <;> simp [hc, hus, hp, htm]
      · simp [hc, hus]
  · simp [callbackBanConfirmed, he]

/-- C10: callbackBanConfirmed edits the admin message first (appending the
confirmation annotation and clearing the keyboard); if the clean-message
recovery, the sample update or the payload parse then fails, the handler
returns the corresponding error while the already-issued edit remains in
the trace (it is not rolled back). -/
theorem c10_edit_first_no_rollback (env : Env) (q : CallbackQuery)
    (hedit : env.editFails = false) :
    (callbackBanConfirmed env q).1.head? =
      some (.editMessage q.msgChatID q.msgID (banConfirmedText env q) true) ∧
    (∀ e, getCleanMessage q.msgText = .error e →
      (callbackBanConfirmed env q).2 = some .cleanMsgFailed ∧
      Effect.editMessage q.msgChatID q.msgID (banConfirmedText env q) true ∈
        (callbackBanConfirmed env q).1) ∧
    (∀ cm, getCleanMessage q.msgText = .ok cm → env.updateSpamFails = true →
      (callbackBanConfirmed env q).2 = some .updateSpamFailed ∧
      Effect.editMessage q.msgChatID q.msgID (banConfirmedText env q) true ∈
        (callbackBanConfirmed env q).1) ∧
    (∀ cm e, getCleanMessage q.msgText = .ok cm → env.updateSpamFails = false →
      parseCallbackData q.data = .error e →
      (callbackBanConfirmed env q).2 = some .parseFailed ∧
      Effect.editMessage q.msgChatID q.msgID (banConfirmedText env q) true ∈
        (callbackBanConfirmed env q).1) := by
  refine ⟨callbackBanConfirmed_head env q, ?_, ?_, ?_⟩
  · intro e hc
    simp only [callbackBanConfirmed, hedit, Bool.false_eq_true, if_false, hc]
    exact ⟨by trivial, by simp⟩
  · intro cm hc hus
    simp only [callbackBanConfirmed, hedit, Bool.false_eq_true, if_false, hc, hus, if_true]
    exact ⟨by trivial, by simp⟩
  · intro cm e hc hus hp
    simp only [callbackBanConfirmed, hedit, hus, Bool.false_eq_true, if_false, hc, hp]
    exact ⟨by trivial, by simp⟩

/-- A ConfirmBan press whose admin-message text has a single line, so the
clean-message recovery fails. -/
def qC10 : CallbackQuery :=
  { data := strL "+7:100", fromUserName := strL "admin",
    msgText := strL "x", msgChatID := 2, msgID := 55, msgDate := 0 }

/-- C10 witness: the statement at a concrete press whose clean-message
recovery fails; the edit stays at the head of the trace. -/
theorem c10_edit_first_no_rollback_witness :
    (callbackBanConfirmed baseEnv qC10).1.head? =
      some (.editMessage qC10.msgChatID qC10.msgID (banConfirmedText baseEnv qC10) true) ∧
    (callbackBanConfirmed baseEnv qC10).2 = some .cleanMsgFailed ∧
    Effect.editMessage qC10.msgChatID qC10.msgID (banConfirmedText baseEnv qC10) true ∈
      (callbackBanConfirmed baseEnv qC10).1 :=
  ⟨(c10_edit_first_no_rollback baseEnv qC10 rfl).1,
   ((c10_edit_first_no_rollback baseEnv qC10 rfl).2.1 .tooShort (by decide)).1,
   ((c10_edit_first_no_rollback baseEnv qC10 rfl).2.1 .tooShort (by decide)).2⟩
